import Mathlib

/-!
Verification development for the Telegram-Client-AI-Agent repository.

The Python sources are shallowly embedded: Python str values become Lean
String (with character-list helpers modelling the str methods the code
uses), Python int becomes Int, dict lookups with defaults become structure
fields with the defaults already documented field-by-field, side-effecting
calls to external collaborators (Telegram client, AI backends, vector
store) become explicit oracle functions or outcome parameters, and
exception control flow becomes Except / outcome values with the
try/except blocks of the source embedded as explicit catches.
-/

namespace TgBot

/-! ## Python string primitives used by the sources -/

/-- Decimal digit characters of a natural number, as in Python str(). -/
def natDigits (n : Nat) : List Char := Nat.toDigits 10 n

/-- Model of Python str() on an int: minus sign for negatives followed by
the decimal digits of the absolute value. -/
def intStr (i : Int) : List Char :=
  if i < 0 then '-' :: natDigits i.natAbs else natDigits i.natAbs

/-- Python str() on an int, packaged as a String. -/
def pyStr (i : Int) : String := ⟨intStr i⟩

/-- Model of Python str.startswith. -/
def pyStartsWith (s pre : String) : Bool := List.isPrefixOf pre.toList s.toList

/-- Model of Python str.replace (replace every non-overlapping occurrence,
left to right). The skip counter consumes characters already covered by an
emitted replacement. -/
def replLoop (n o : List Char) : Nat → List Char → List Char
  | _, [] => []
  | k+1, _ :: cs => replLoop n o k cs
  | 0, c :: cs =>
    if List.isPrefixOf o (c :: cs) ∧ o ≠ [] then n ++ replLoop n o (o.length - 1) cs
    else c :: replLoop n o 0 cs

/-- Python s.replace(old, new) for a non-empty old pattern. -/
def pyReplaceAll (s old new : String) : String := ⟨replLoop new.toList old.toList 0 s.toList⟩

/-- Model of Python str.lower restricted to the ASCII names appearing in
TDLib content-type tags. -/
def pyLower (s : String) : String := ⟨s.toList.map Char.toLower⟩

/-- Model of Python str.strip: drop leading and trailing whitespace. -/
def pyStrip (s : String) : String :=
  ⟨((s.toList.dropWhile Char.isWhitespace).reverse.dropWhile Char.isWhitespace).reverse⟩

/-! ## Event model (src/services/tg/events/enums.py, event.py)

The client and raw_event back-references of the dataclasses are non-owning
debug references; they are modelled out of band as oracle parameters of
the functions that actually call into the client. -/

/-- ChatType enum from src/services/tg/events/enums.py. -/
inductive ChatType where
  | PRIVATE
  | GROUP
  | SUPERGROUP
  | CHANNEL
  | UNKNOWN
deriving DecidableEq, Repr

/-- SenderInfo dataclass from src/services/tg/events/event.py. -/
structure SenderInfo where
  user_id : Int
  username : String := ""
  first_name : String := ""
  last_name : String := ""
  phone : String := ""
deriving DecidableEq, Repr

/-- MediaInfo dataclass from src/services/tg/events/event.py. TDLib file
ids and sizes are ints at runtime; the thumbnail dict is never read by the
code under specification and is omitted. -/
structure MediaInfo where
  media_type : String
  file_id : Option Int := none
  file_size : Option Int := none
  mime_type : Option String := none
  duration : Option Int := none
  width : Option Int := none
  height : Option Int := none
  caption : Option String := none
deriving DecidableEq, Repr

/-- MessageEvent dataclass from src/services/tg/events/event.py. The
datetime fields are modelled by their integer unix timestamps. -/
structure MessageEvent where
  message_id : Int
  chat_id : Int
  sender_id : Int
  sender : SenderInfo
  text : String
  raw_text : String
  date : Int
  edit_date : Option Int := none
  chat_type : ChatType := ChatType.UNKNOWN
  is_outgoing : Bool := false
  is_mention : Bool := false
  is_service : Bool := false
  has_media : Bool := false
  media : Option MediaInfo := none
  reply_to_message_id : Option Int := none
  forward_from_chat_id : Option Int := none
deriving DecidableEq, Repr

/-- UserStatusEvent dataclass from src/services/tg/events/event.py. -/
structure UserStatusEvent where
  user_id : Int
  is_online : Bool
  last_seen : Option Int := none
deriving DecidableEq, Repr

/-- ChatActionEvent dataclass from src/services/tg/events/event.py. -/
structure ChatActionEvent where
  chat_id : Int
  user_id : Int
  action : String
deriving DecidableEq, Repr

/-- The dynamic union of normalized events routed by EventRouter, closed
into a tagged variant; isinstance checks in handlers become matches. -/
inductive Event where
  | message (e : MessageEvent)
  | userStatus (e : UserStatusEvent)
  | chatAction (e : ChatActionEvent)
deriving DecidableEq, Repr

/-! ## Chat-type derivation (src/services/tg/events/router.py lines 149-161) -/

/-- Chat-type derivation exactly as written in
EventRouter._tdlib_to_message_event: positive ids are PRIVATE, ids whose
str() form starts with "-100" are SUPERGROUP, remaining negative ids are
GROUP, and anything else is UNKNOWN. -/
def chatTypeOf (chat_id : Int) : ChatType :=
  if chat_id > 0 then ChatType.PRIVATE
  else if pyStartsWith (pyStr chat_id) "-100" then ChatType.SUPERGROUP
  else if chat_id < 0 then ChatType.GROUP
  else ChatType.UNKNOWN

/-- Chat-type rule in the words of the specification claim: positive ids
PRIVATE; ids whose absolute value has decimal form starting with "100"
SUPERGROUP; any other negative id GROUP; anything else UNKNOWN. -/
def chatTypeSpec (chat_id : Int) : ChatType :=
  if chat_id > 0 then ChatType.PRIVATE
  else if pyStartsWith ⟨natDigits chat_id.natAbs⟩ "100" then ChatType.SUPERGROUP
  else if chat_id < 0 then ChatType.GROUP
  else ChatType.UNKNOWN

lemma chatTypeOf_eq_chatTypeSpec (i : Int) : chatTypeOf i = chatTypeSpec i := by
  by_cases hp : i > 0
  · simp [chatTypeOf, chatTypeSpec, hp]
  · by_cases hz : i = 0
    · subst hz; decide
    · have hneg : i < 0 := by omega
      have hstr : pyStr i = ⟨'-' :: natDigits i.natAbs⟩ := by
        simp [pyStr, intStr, hneg]
      have hpre : pyStartsWith (pyStr i) "-100"
          = pyStartsWith ⟨natDigits i.natAbs⟩ "100" := by
        rw [hstr]
        simp [pyStartsWith, String.toList, List.isPrefixOf]
      rw [chatTypeOf, chatTypeSpec, hpre]

/-! ## TDLib new-message payload
(the subset of the raw update dict read by EventRouter._tdlib_to_message_event)

Each field carries the value the Python code observes after its dict .get
chain, with the .get default as the field default. -/

/-- One entry of content photo sizes, as read by the largest-size
selection in EventRouter._extract_media_info. -/
structure TdPhotoSize where
  width : Option Int := none
  height : Option Int := none
  photo_id : Option Int := none
  photo_size : Option Int := none
deriving DecidableEq, Repr

/-- The common shape of the TDLib media sub-objects (video, voice_note,
audio, document, sticker, animation): inner_id and inner_size model the
nested file object read as e.g. video.video.id and video.video.size. -/
structure TdMediaObj where
  duration : Option Int := none
  width : Option Int := none
  height : Option Int := none
  mime_type : Option String := none
  inner_id : Option Int := none
  inner_size : Option Int := none
deriving DecidableEq, Repr

/-- Message content dict: atType models the @type discriminator (default
empty string), text_text models content.text.text, caption_text models
content.caption.text, each with the .get defaults of the source. -/
structure TdContent where
  atType : String := ""
  text_text : String := ""
  caption_text : String := ""
  photo_sizes : List TdPhotoSize := []
  video : TdMediaObj := {}
  voice_note : TdMediaObj := {}
  audio : TdMediaObj := {}
  document : TdMediaObj := {}
  sticker : TdMediaObj := {}
  animation : TdMediaObj := {}
deriving DecidableEq, Repr

/-- TDLib message dict as read by the normalizer; sender_user_id models
message.sender_id.user_id with default 0, edit_date defaults to 0,
forward_from_chat_id models message.forward_info.from_chat_id. -/
structure TdMessage where
  id : Int
  chat_id : Int
  content : TdContent := {}
  sender_user_id : Int := 0
  date : Int := 0
  edit_date : Int := 0
  is_outgoing : Bool := false
  contains_unread_mention : Bool := false
  reply_to_message_id : Option Int := none
  forward_from_chat_id : Option Int := none
deriving DecidableEq, Repr

/-- User dict fields read by EventRouter._get_sender_info, with the .get
defaults applied (usernames_editable models usernames.editable_username). -/
structure TdUser where
  usernames_editable : String := ""
  first_name : String := ""
  last_name : String := ""
  phone_number : String := ""
deriving DecidableEq, Repr

/-- Python max(sizes, key area) over the photo sizes list: first element
of maximal width times height, replacing the running maximum only on a
strictly larger key, exactly as CPython max does. -/
def pyMaxByArea (sizes : List TdPhotoSize) : Option TdPhotoSize :=
  match sizes with
  | [] => none
  | s :: rest =>
      some (rest.foldl
        (fun acc x =>
          if x.width.getD 0 * x.height.getD 0 > acc.width.getD 0 * acc.height.getD 0
          then x else acc) s)

/-- EventRouter._extract_media_info (router.py lines 202-282): compute the
media_type tag by stripping the message name marker and lowercasing
(unknown when the tag does not carry the marker), take the caption, then
fill the type-specific fields. The source always returns a MediaInfo
object even though its signature is Optional. -/
def extractMediaInfo (content : TdContent) (content_type : String) : MediaInfo :=
  let media_type :=
    if pyStartsWith content_type "message"
    then pyLower (pyReplaceAll content_type "message" "") else "unknown"
  let caption := content.caption_text
  let base : MediaInfo := { media_type := media_type, caption := some caption }
  if content_type = "messagePhoto" then
    match pyMaxByArea content.photo_sizes with
    | some largest =>
        { base with width := largest.width, height := largest.height,
                    file_id := largest.photo_id, file_size := largest.photo_size }
    | none => base
  else if content_type = "messageVideo" then
    { base with duration := content.video.duration, width := content.video.width,
                height := content.video.height, file_id := content.video.inner_id,
                file_size := content.video.inner_size, mime_type := content.video.mime_type }
  else if content_type = "messageVoiceNote" then
    { base with duration := content.voice_note.duration,
                file_id := content.voice_note.inner_id,
                file_size := content.voice_note.inner_size,
                mime_type := some (content.voice_note.mime_type.getD "audio/ogg") }
  else if content_type = "messageAudio" then
    { base with duration := content.audio.duration, file_id := content.audio.inner_id,
                file_size := content.audio.inner_size, mime_type := content.audio.mime_type }
  else if content_type = "messageDocument" then
    { base with file_id := content.document.inner_id,
                file_size := content.document.inner_size,
                mime_type := content.document.mime_type }
  else if content_type = "messageSticker" then
    { base with width := content.sticker.width, height := content.sticker.height,
                file_id := content.sticker.inner_id }
  else if content_type = "messageAnimation" then
    { base with duration := content.animation.duration, width := content.animation.width,
                height := content.animation.height, file_id := content.animation.inner_id,
                file_size := content.animation.inner_size,
                mime_type := content.animation.mime_type }
  else base

/-- EventRouter._get_sender_info: ask the client for the user; a failed
lookup yields a degraded SenderInfo with a synthesized first name. -/
def getSenderInfo (get_user : Int → Option TdUser) (sender_id : Int) : SenderInfo :=
  match get_user sender_id with
  | none => { user_id := sender_id, first_name := "User" ++ pyStr sender_id }
  | some u =>
      { user_id := sender_id, username := u.usernames_editable,
        first_name := u.first_name, last_name := u.last_name, phone := u.phone_number }

/-- EventRouter._tdlib_to_message_event (router.py lines 123-200): build a
MessageEvent from a TDLib message dict; get_user is the oracle for the
client user lookup. -/
def tdlibToMessageEvent (get_user : Int → Option TdUser) (message : TdMessage) :
    MessageEvent :=
  let content := message.content
  let content_type := content.atType
  let text := if content_type = "messageText" then content.text_text
              else content.caption_text
  let chat_id := message.chat_id
  let chat_type := chatTypeOf chat_id
  let sender_id := message.sender_user_id
  let sender_info := getSenderInfo get_user sender_id
  let has_media := content_type ≠ "messageText"
  let media_info := if has_media then some (extractMediaInfo content content_type)
                    else none
  { message_id := message.id
    chat_id := chat_id
    sender_id := sender_id
    sender := sender_info
    text := text
    raw_text := text
    date := message.date
    edit_date := if message.edit_date > 0 then some message.edit_date else none
    chat_type := chat_type
    is_outgoing := message.is_outgoing
    is_mention := message.contains_unread_mention
    is_service := if content_type ≠ "" then pyStartsWith content_type "messageService"
                  else false
    has_media := has_media
    media := media_info
    reply_to_message_id := message.reply_to_message_id
    forward_from_chat_id := message.forward_from_chat_id }

/-! ## Python truthiness helpers for the optional fields the code tests -/

/-- Python truthiness of a str: empty string is falsy. -/
def pyTruthyStr (s : String) : Bool := s ≠ ""

/-- Python truthiness of an Optional int: None and 0 are falsy. -/
def pyTruthyOptInt (o : Option Int) : Bool :=
  match o with
  | none => false
  | some n => n ≠ 0

/-- Python truthiness of an Optional str: None and the empty string are
falsy. -/
def pyTruthyOptStr (o : Option String) : Bool :=
  match o with
  | none => false
  | some s => s ≠ ""

/-! ## Event router (src/services/tg/events/router.py lines 25-52)

A handler is modelled by its eligibility predicate together with the
outcome of its side-effecting handle call: either it returns, or it raises
an exception with a message. -/

/-- Outcome of one handle call: normal return or a raised exception. -/
inductive HandlerOutcome where
  | ok
  | exc (msg : String)
deriving DecidableEq, Repr

/-- A registered handler: the can_handle predicate plus the behaviour of
its handle method on each event. -/
structure Handler where
  can_handle : Event → Bool
  handle : Event → HandlerOutcome

/-- What the router records for one handler during one dispatch pass. -/
inductive HandlerResult where
  | skipped
  | handled
  | errored (msg : String)
deriving DecidableEq, Repr

/-- The body of the per-handler loop iteration of EventRouter.route: the
try block runs can_handle and, when eligible, handle; the except block
catches a raised exception and logs it. -/
def runHandler (h : Handler) (e : Event) : HandlerResult :=
  if h.can_handle e then
    match h.handle e with
    | HandlerOutcome.ok => HandlerResult.handled
    | HandlerOutcome.exc m => HandlerResult.errored m
  else HandlerResult.skipped

/-- The handler loop of EventRouter.route, with exception propagation made
explicit: a raised exception inside one iteration is caught there (the
errored result) instead of surfacing as an error of the whole loop. -/
def routeLoop : List Handler → Event → Except String (List HandlerResult)
  | [], _ => Except.ok []
  | h :: hs, e =>
    let r : HandlerResult :=
      if h.can_handle e then
        match h.handle e with
        | HandlerOutcome.ok => HandlerResult.handled
        | HandlerOutcome.exc m => HandlerResult.errored m
      else HandlerResult.skipped
    match routeLoop hs e with
    | Except.ok rs => Except.ok (r :: rs)
    | Except.error m => Except.error m

/-- EventRouter.route: normalize (the already-normalized optional event is
passed in), drop unrecognized updates, then run every registered handler
in registration order. -/
def route (event : Option Event) (handlers : List Handler) :
    Except String (List HandlerResult) :=
  match event with
  | none => Except.ok []
  | some e => routeLoop handlers e

/-! ## Group moderation handler
(src/services/tg/events/handlers/moderation/group_moderation.py) -/

/-- GroupModerationHandler state after __init__. -/
structure GroupModerationHandler where
  monitored_groups : List Int
  send_logs_to : Option Int := none
  send_warnings : Bool := false
deriving DecidableEq, Repr

/-- GroupModerationHandler.__init__: the line
self.monitored_groups = monitored_groups or set() replaces a missing (or
empty, both falsy) allow-list by an empty set. -/
def mkGroupModerationHandler (monitored_groups : Option (List Int))
    (send_logs_to : Option Int) (send_warnings : Bool) : GroupModerationHandler :=
  { monitored_groups := monitored_groups.getD []
    send_logs_to := send_logs_to
    send_warnings := send_warnings }

/-- GroupModerationHandler.can_handle (lines 36-56): MessageEvent only,
GROUP chat type only, not both outgoing and service, and membership of
abs(chat_id) in the monitored set. After __init__ the monitored set is
never None, so the source conjunct self.monitored_groups is not None is
constantly true and the membership test always applies. -/
def GroupModerationHandler.canHandle (h : GroupModerationHandler) (event : Event) :
    Bool :=
  match event with
  | Event.message e =>
    if e.chat_type ≠ ChatType.GROUP then false
    else if e.is_outgoing && e.is_service then false
    else if true && !(h.monitored_groups.contains ((e.chat_id.natAbs : Int))) then false
    else true
  | _ => false

/-! ## Chat response and PM reply handler
(src/services/ai/chat/response.py,
src/services/tg/events/handlers/chat/pm_reply_handler.py) -/

/-- ChatResponse dataclass; float confidence is modelled by Rat. -/
structure ChatResponse where
  message : String
  should_escalate : Bool := false
  escalation_reason : Option String := none
  confidence : Rat := 1
  language : Option String := none
deriving DecidableEq, Repr

/-- ChatResponse.to_telegram_message. -/
def ChatResponse.to_telegram_message (r : ChatResponse) : String := r.message

/-- Outcome of one call into an external collaborator: a returned value or
a raised exception. -/
inductive Call (α : Type) where
  | ret (a : α)
  | raised (msg : String)
deriving DecidableEq, Repr

/-- Observable external actions of PMReplyHandler.handle. -/
inductive PmAction where
  | escalationSend
  | replySend
deriving DecidableEq, Repr

/-- The try-block body of PMReplyHandler.handle (lines 68-106), recording
which send calls were made and the exception, if any, escaping the body:
generate a response, send the escalation notification when the response
escalates and an escalation chat is configured (Python truthiness, so a
configured chat id 0 is treated as absent), then send the reply. -/
def pmBody (escalation_chat_id : Option Int) (agent_call : Call ChatResponse)
    (escalation_send reply_send : Call Bool) : List PmAction × Option String :=
  match agent_call with
  | Call.raised m => ([], some m)
  | Call.ret response =>
    if response.should_escalate && pyTruthyOptInt escalation_chat_id then
      match escalation_send with
      | Call.raised m => ([PmAction.escalationSend], some m)
      | Call.ret _ =>
        match reply_send with
        | Call.raised m => ([PmAction.escalationSend, PmAction.replySend], some m)
        | Call.ret _ => ([PmAction.escalationSend, PmAction.replySend], none)
    else
      match reply_send with
      | Call.raised m => ([PmAction.replySend], some m)
      | Call.ret _ => ([PmAction.replySend], none)

/-- PMReplyHandler.handle (lines 61-108): the whole body runs inside one
try; the except clause at line 107 catches any exception and only logs it,
so nothing propagates to the router. -/
def pmHandle (escalation_chat_id : Option Int) (agent_call : Call ChatResponse)
    (escalation_send reply_send : Call Bool) : List PmAction × Option String :=
  match pmBody escalation_chat_id agent_call escalation_send reply_send with
  | (acts, _) => (acts, none)

/-! ## Moderation service (src/services/ai/moderation/service.py and
src/services/ai/moderation/config/moderation_config.py) -/

/-- ModerationResult dataclass with its declared defaults. -/
structure ModerationResult where
  should_delete : Bool := false
  should_warn : Bool := false
  reason : Option String := none
  confidence : Rat := 0
  violations : Option (List String) := none
deriving DecidableEq, Repr

/-- The moderation model backend capability consumed by the service. -/
structure ModerationModel where
  moderate_text : String → ModerationResult
  moderate_image : List Nat → Option String → ModerationResult
  moderate_voice : String → ModerationResult

/-- The try-block body of ModerationService._moderate_photo (lines 74-86):
download the photo bytes; on a falsy download (None or empty bytes) fall
back to the caption — but the source line 82 builds the fallback call as
moderate_text(event.media.caption, context) where the name context is
undefined, so evaluating the arguments raises NameError before any call is
made; without a caption return the neutral failed-to-download result; on a
successful download moderate the image. -/
def moderatePhotoBody (model : ModerationModel)
    (download : Option Int → Option (List Nat)) (media : MediaInfo) :
    Except String ModerationResult :=
  let image_data := download media.file_id
  if image_data.getD [] = [] then
    if pyTruthyOptStr media.caption then
      Except.error "NameError: name 'context' is not defined"
    else Except.ok { should_delete := false, reason := some "Failed to download media" }
  else Except.ok (model.moderate_image (image_data.getD []) media.caption)

/-- ModerationService._moderate_photo: the except clause catches any
exception of the body and returns the neutral moderation-error result. -/
def moderatePhoto (model : ModerationModel)
    (download : Option Int → Option (List Nat)) (media : MediaInfo) :
    ModerationResult :=
  match moderatePhotoBody model download media with
  | Except.ok r => r
  | Except.error _ => { should_delete := false, reason := some "Moderation error" }

/-- ModerationService._moderate_voice (lines 91-115): download, fall back
to caption moderation on a falsy download, neutral result when no caption;
otherwise transcribe (oracle) and moderate the transcription, with a falsy
transcription yielding the neutral failed-to-transcribe result. Nothing in
the body raises in this model, so the except clause is not reached. -/
def moderateVoice (model : ModerationModel)
    (download : Option Int → Option (List Nat))
    (transcribe : List Nat → Option String) (media : MediaInfo) :
    ModerationResult :=
  let audio_data := download media.file_id
  if audio_data.getD [] = [] then
    if pyTruthyOptStr media.caption then model.moderate_text (media.caption.getD "")
    else { should_delete := false, reason := some "Failed to download media" }
  else
    let transcription := transcribe (audio_data.getD [])
    if transcription.getD "" = "" then
      { should_delete := false, reason := some "Failed to transcribe voice" }
    else model.moderate_voice (transcription.getD "")

/-- ModerationService.moderate_message (lines 31-70): dispatch by content
shape; branches that the source lets fall through to the final return are
written out as the neutral no-content result. -/
def moderateMessage (model : ModerationModel)
    (download : Option Int → Option (List Nat))
    (transcribe : List Nat → Option String) (event : MessageEvent) :
    ModerationResult :=
  let noContent : ModerationResult :=
    { should_delete := false, reason := some "No content to moderate" }
  if !event.has_media && pyTruthyStr event.text then model.moderate_text event.text
  else if event.has_media && event.media.isSome then
    match event.media with
    | some m =>
      if m.media_type = "photo" then moderatePhoto model download m
      else if m.media_type = "voicenote" ∨ m.media_type = "voice" then
        moderateVoice model download transcribe m
      else if m.media_type = "video" then noContent
      else if pyTruthyOptStr m.caption then model.moderate_text (m.caption.getD "")
      else noContent
    | none => noContent
  else noContent

/-! ## Chat agent (src/services/ai/chat/agent.py)

The per-user conversation dict is modelled as a total map defaulting to
the empty list, matching the .get(user_id, []) reads of the source. The
chat-model backend is an external collaborator; the response it returns
for the current call is passed in as an oracle value. -/

/-- ChatAgent state: the max_history setting (a Python int, so negatives
are representable) and the per-user conversation histories of role-content
pairs. -/
structure ChatAgent where
  max_history : Int
  conversations : Int → List (String × String)

/-- ChatAgent as built by __init__: empty conversation dict. -/
def mkChatAgent (max_history : Int) : ChatAgent :=
  { max_history := max_history, conversations := fun _ => [] }

/-- Store one user's history in the conversation dict. -/
def ChatAgent.setConv (a : ChatAgent) (user_id : Int)
    (h : List (String × String)) : ChatAgent :=
  { a with conversations := fun u => if u = user_id then h else a.conversations u }

/-- Python list slice l[i:] for an arbitrary signed index: a negative
index keeps the last min(-i, len) elements — in particular l[-0:] = l[0:]
keeps everything — and a non-negative index drops the first min(i, len). -/
def pySliceFrom (l : List α) (i : Int) : List α :=
  if i < 0 then l.drop (l.length - min i.natAbs l.length)
  else l.drop (min i.toNat l.length)

/-- Result of one ChatAgent.generate_response call: the response, the
agent state after the call, and the prior history that was handed to the
chat-model backend. -/
structure GenResult where
  response : ChatResponse
  agent : ChatAgent
  sent_history : List (String × String)

/-- ChatAgent.generate_response (lines 50-106): optionally wipe the
history of the user first; read the history; retrieval only builds the
request context and never touches agent state; delegate to the backend
(oracle model_response); on a non-escalated response append the user and
assistant turns and trim with the Python slice history[-max_history*2:]
when the length exceeds max_history*2; on an escalated response leave the
stored history untouched. -/
def generateResponse (a : ChatAgent) (model_response : ChatResponse)
    (user_message : String) (user_id : Int) (clear_history : Bool) : GenResult :=
  let a1 := if clear_history then a.setConv user_id [] else a
  let history := a1.conversations user_id
  let response := model_response
  if !response.should_escalate then
    let h2 := history ++ [("user", user_message), ("assistant", response.message)]
    let h3 := if (h2.length : Int) > a1.max_history * 2
              then pySliceFrom h2 (-(a1.max_history * 2)) else h2
    { response := response, agent := a1.setConv user_id h3, sent_history := history }
  else
    { response := response, agent := a1, sent_history := history }

/-- One scripted generate_response call for reasoning about call
sequences: the oracle response together with the call arguments. -/
structure CallSpec where
  response : ChatResponse
  user_message : String
  user_id : Int
deriving DecidableEq, Repr

/-- Run a sequence of generate_response calls with clear_history left
false, threading the agent state. -/
def runCalls (a : ChatAgent) (calls : List CallSpec) : ChatAgent :=
  calls.foldl
    (fun st c => (generateResponse st c.response c.user_message c.user_id false).agent) a

/-! ## Knowledge base (src/services/knowledge_base/knowledge_base.py and
stores/chroma_store.py) -/

/-- Metadata recorded for one chunk; end_pos models the metadata key named
end in the source. -/
structure ChunkMeta where
  source_index : Nat
  chunk_index : Nat
  start : Nat
  end_pos : Nat
deriving DecidableEq, Repr

/-- One chunk dict produced by KnowledgeBase._chunk_texts. -/
structure TextChunk where
  text : List Char
  metadata : ChunkMeta
deriving DecidableEq, Repr

/-- The while loop of KnowledgeBase._chunk_texts (lines 155-165) for one
source text: emit text[start:end] with end = min(start+chunk_size, len),
stop after the chunk that reaches the end of the text, otherwise advance
start by chunk_size - chunk_overlap. The loop terminates exactly when that
stride is positive, so the definition carries chunk_overlap < chunk_size. -/
def chunkLoop (chunk_size chunk_overlap : Nat) (hlt : chunk_overlap < chunk_size)
    (idx : Nat) (text : List Char) (start chunk_idx : Nat) : List TextChunk :=
  if h : start < text.length then
    let end_pos := min (start + chunk_size) text.length
    let chunk_text := (text.drop start).take (end_pos - start)
    let c : TextChunk := ⟨chunk_text, ⟨idx, chunk_idx, start, end_pos⟩⟩
    if end_pos = text.length then [c]
    else
      c :: chunkLoop chunk_size chunk_overlap hlt idx text
        (start + (chunk_size - chunk_overlap)) (chunk_idx + 1)
  else []
termination_by text.length - start
decreasing_by
  omega

/-- KnowledgeBase._chunk_texts (lines 146-166): chunk every enumerated
source text from start 0 and concatenate. -/
def chunkTexts (chunk_size chunk_overlap : Nat) (hlt : chunk_overlap < chunk_size)
    (texts : List (List Char)) : List TextChunk :=
  (texts.enum.map (fun p => chunkLoop chunk_size chunk_overlap hlt p.1 p.2 0 0)).flatten

/-- Vector store state; the chroma-backed store keeps one document list. -/
structure VecStore where
  docs : List String := []
deriving DecidableEq, Repr

/-- ChromaVectorStore.count: number of stored documents. -/
def VecStore.count (s : VecStore) : Nat := s.docs.length

/-- ChromaVectorStore.exists: whether the collection holds documents,
defined as count() > 0 in the source. -/
def VecStore.hasDocs (s : VecStore) : Bool := s.count > 0

/-- ChromaVectorStore.clear: delete every document. -/
def VecStore.clear (_s : VecStore) : VecStore := { docs := [] }

/-- ChromaVectorStore.add: put the given documents into the collection. -/
def VecStore.add (s : VecStore) (documents : List String) : VecStore :=
  { docs := s.docs ++ documents }

/-- The text source capability: exists() and the loaded segments. -/
structure TextSource where
  present : Bool
  data : List (List Char)

/-- KnowledgeBase.build_index (lines 71-121): when the store already holds
documents and no force rebuild is requested, skip everything and return
the existing count with the store untouched. On every other path the
source line 94 formats len(text) while the local variable text is only
assigned at line 101, so the build raises UnboundLocalError — after the
clear when force_rebuild was set. -/
def buildIndex (_source : TextSource) (store : VecStore) (force_rebuild : Bool) :
    Except String (Nat × VecStore) :=
  if !force_rebuild && store.hasDocs then Except.ok (store.count, store)
  else
    let store1 := if force_rebuild then store.clear else store
    let _ := store1
    Except.error "UnboundLocalError: local variable 'text' referenced before assignment"

/-! ## Concrete inputs used by counterexamples and witnesses -/

/-- A GROUP, non-outgoing, non-service message event. -/
def groupEvent : MessageEvent :=
  { message_id := 1, chat_id := -12345, sender_id := 7, sender := { user_id := 7 },
    text := "spam", raw_text := "spam", date := 0, chat_type := ChatType.GROUP }

/-- An escalating chat response. -/
def escalatingResp : ChatResponse :=
  { message := "auto-reply", should_escalate := true,
    escalation_reason := some "needs human", confidence := 0 }

/-- A plain non-escalating chat response. -/
def okResp : ChatResponse := { message := "ok" }

/-- A moderation backend whose text path is distinguishable from every
neutral result. -/
def flagModel : ModerationModel :=
  { moderate_text := fun _ =>
      { should_delete := true, reason := some "caption flagged", confidence := 1 }
    moderate_image := fun _ _ => { should_delete := false, reason := some "image ok" }
    moderate_voice := fun _ => { should_delete := false, reason := some "voice ok" } }

/-- A photo media record carrying a caption. -/
def photoMediaWithCaption : MediaInfo :=
  { media_type := "photo", file_id := some 5, caption := some "buy now" }

/-- A photo media record without a caption. -/
def photoMediaNoCaption : MediaInfo := { media_type := "photo", file_id := some 5 }

/-- A photo message event with a caption. -/
def photoEventWithCaption : MessageEvent :=
  { message_id := 2, chat_id := -1, sender_id := 3, sender := { user_id := 3 },
    text := "buy now", raw_text := "buy now", date := 0, chat_type := ChatType.GROUP,
    has_media := true, media := some photoMediaWithCaption }

/-- A photo message event without a caption. -/
def photoEventNoCaption : MessageEvent :=
  { message_id := 3, chat_id := -1, sender_id := 3, sender := { user_id := 3 },
    text := "", raw_text := "", date := 0, chat_type := ChatType.GROUP,
    has_media := true, media := some photoMediaNoCaption }

/-- A download oracle that always fails. -/
def failingDownload : Option Int → Option (List Nat) := fun _ => none

/-! ## Claim theorems -/

/-- C1: for every TDLib new-message update normalized into a MessageEvent,
chat_type is derived from chat_id alone: chat_id > 0 yields PRIVATE, a
chat_id whose absolute value has decimal form starting with "100" yields
SUPERGROUP, any other chat_id < 0 yields GROUP, and anything else yields
UNKNOWN. -/
theorem C1_chat_type_from_chat_id (get_user : Int → Option TdUser) (m : TdMessage) :
    (tdlibToMessageEvent get_user m).chat_type = chatTypeSpec m.chat_id := by
  simpa [tdlibToMessageEvent] using chatTypeOf_eq_chatTypeSpec m.chat_id

/-- C9: for every MessageEvent produced by the normalizer, has_media holds
exactly when a MediaInfo is attached, and exactly when the content type is
not the plain-text kind — including unrecognized media content types,
which still get a MediaInfo. -/
theorem C9_has_media_iff_media (get_user : Int → Option TdUser) (m : TdMessage) :
    ((tdlibToMessageEvent get_user m).has_media
        = (tdlibToMessageEvent get_user m).media.isSome)
    ∧ ((tdlibToMessageEvent get_user m).has_media
        = decide (m.content.atType ≠ "messageText")) := by
  by_cases h : m.content.atType = "messageText" <;>
    simp [tdlibToMessageEvent, h]

/-- C3: dispatching a normalized event runs every registered handler in
registration order, each can_handle/handle pair exactly once; an exception
raised inside one handler is caught there, so later handlers still run and
route always returns normally. -/
theorem C3_route_isolates_handler_failures (handlers : List Handler) (e : Event) :
    route (some e) handlers = Except.ok (handlers.map (fun h => runHandler h e)) := by
  induction handlers with
  | nil => rfl
  | cons h hs ih =>
    simp only [route] at ih ⊢
    simp [routeLoop, ih, runHandler]

/-- C2: the claim states that a GroupModerationHandler constructed without
a monitored-groups allow-list accepts every GROUP event, but the
constructor replaces None by the empty set, so can_handle rejects every
group message; here it returns false on a GROUP, non-outgoing, non-service
event. -/
theorem C2_no_allowlist_blocks_every_group :
    (mkGroupModerationHandler none none false).canHandle (Event.message groupEvent)
      = false := by decide

/-- C7: build_index without the force-rebuild flag on a store that already
holds documents performs no add or clear and returns the existing count,
and therefore a second build right after such a call returns the same
count with the store unchanged. -/
theorem C7_build_index_skip_and_idempotent (source : TextSource) (store : VecStore)
    (hdocs : store.hasDocs = true) :
    buildIndex source store false = Except.ok (store.count, store)
    ∧ ∀ (n : Nat) (store2 : VecStore),
        buildIndex source store false = Except.ok (n, store2) →
        buildIndex source store2 false = Except.ok (n, store2) := by
  refine ⟨by simp [buildIndex, hdocs], ?_⟩
  intro n store2 h
  simp only [buildIndex, hdocs, Bool.not_false, Bool.and_true, if_pos] at h
  obtain ⟨hn, hs⟩ := Prod.mk.injEq .. ▸ Except.ok.injEq .. ▸ h
  simp [buildIndex, ← hs, hdocs, hn]

/-- Witness for C7 at a store holding one document, exercising both the
skip conclusion and the second-call conclusion. -/
theorem C7_build_index_skip_and_idempotent_witness :
    buildIndex ⟨true, []⟩ ⟨["doc"]⟩ false = Except.ok (1, ⟨["doc"]⟩) :=
  (C7_build_index_skip_and_idempotent ⟨true, []⟩ ⟨["doc"]⟩ (by decide)).2 1 ⟨["doc"]⟩
    (C7_build_index_skip_and_idempotent ⟨true, []⟩ ⟨["doc"]⟩ (by decide)).1

/-- C10: a generate_response call with clear_history true empties the
history of the user before generating (the backend sees an empty history),
and when the response escalates the stored history for that user is still
empty after the call. -/
theorem C10_clear_history_then_escalation (a : ChatAgent) (r : ChatResponse)
    (msg : String) (uid : Int) :
    (generateResponse a r msg uid true).sent_history = []
    ∧ (r.should_escalate = true →
        (generateResponse a r msg uid true).agent.conversations uid = []) := by
  constructor
  · by_cases h : r.should_escalate <;> simp [generateResponse, ChatAgent.setConv, h]
  · intro h; simp [generateResponse, ChatAgent.setConv, h]

/-- Witness for C10 at a concrete escalated call. -/
theorem C10_clear_history_then_escalation_witness :
    (generateResponse (mkChatAgent 10) escalatingResp "hello" 42 true).sent_history = []
    ∧ (generateResponse (mkChatAgent 10) escalatingResp "hello" 42 true).agent.conversations 42
        = [] :=
  ⟨(C10_clear_history_then_escalation (mkChatAgent 10) escalatingResp "hello" 42).1,
   (C10_clear_history_then_escalation (mkChatAgent 10) escalatingResp "hello" 42).2 rfl⟩

/-- C4 counterexample: with an escalation destination configured and the
escalation send raising an exception, the reply send is never made — the
outer except of handle catches the exception after the reply send was
skipped — refuting that the reply is sent in every case. -/
theorem C4_counterexample_escalation_send_raises :
    PmAction.replySend ∉
      (pmHandle (some 99) (Call.ret escalatingResp)
        (Call.raised "network error") (Call.ret true)).1 := by decide

/-- C4 amended: when the escalation send returns (including returning the
None failure value), the reply send is always performed, escalated or not,
and no exception ever propagates out of handle; an exception raised by the
escalation send, however, is caught by the single try/except around the
whole body and then skips the reply. -/
theorem C4_reply_sent_when_escalation_send_returns (escalation_chat_id : Option Int)
    (response : ChatResponse) (b : Bool) (reply_send : Call Bool) :
    PmAction.replySend ∈
      (pmHandle escalation_chat_id (Call.ret response) (Call.ret b) reply_send).1
    ∧ (pmHandle escalation_chat_id (Call.ret response) (Call.ret b) reply_send).2 = none := by
  cases reply_send <;>
    by_cases h : (response.should_escalate && pyTruthyOptInt escalation_chat_id) = true <;>
      simp [pmHandle, pmBody, h]

/-- C5: on a failed photo download the claimed caption fallback does not
happen: line 82 of service.py evaluates the undefined name context and the
NameError is caught into the neutral Moderation error result, which differs
from moderate_text of the caption; without a caption the neutral
failed-to-download result is returned exactly as claimed. -/
theorem C5_photo_download_failure_paths :
    moderateMessage flagModel failingDownload (fun _ => none) photoEventWithCaption
      = { should_delete := false, reason := some "Moderation error" }
    ∧ moderateMessage flagModel failingDownload (fun _ => none) photoEventWithCaption
      ≠ flagModel.moderate_text "buy now"
    ∧ moderateMessage flagModel failingDownload (fun _ => none) photoEventNoCaption
      = { should_delete := false, reason := some "Failed to download media" } := by
  refine ⟨by decide, by decide, by decide⟩

/-! ## Lemmas about the chat-agent history window -/

lemma pySliceFrom_neg_length (l : List α) (k : Int) (hk : 0 < k) :
    ((pySliceFrom l (-k)).length : Int) = min k (l.length : Int) := by
  have hneg : -k < 0 := by omega
  simp only [pySliceFrom, if_pos hneg, List.length_drop]
  omega

lemma generateResponse_agent_max_history (a : ChatAgent) (r : ChatResponse)
    (msg : String) (uid : Int) (cl : Bool) :
    (generateResponse a r msg uid cl).agent.max_history = a.max_history := by
  by_cases h : r.should_escalate <;> cases cl <;>
    simp [generateResponse, ChatAgent.setConv, h]

lemma generateResponse_bound_step (a : ChatAgent) (r : ChatResponse) (msg : String)
    (uid u : Int) (hmh : 1 ≤ a.max_history)
    (hlen : ((a.conversations u).length : Int) ≤ a.max_history * 2) :
    (((generateResponse a r msg uid false).agent.conversations u).length : Int)
      ≤ a.max_history * 2 := by
  by_cases hesc : r.should_escalate
  · simpa [generateResponse, hesc] using hlen
  · by_cases huid : u = uid
    · subst huid
      simp only [generateResponse, hesc, Bool.not_false, if_true, if_false,
        Bool.false_eq_true, ChatAgent.setConv, if_pos rfl]
      by_cases hgt :
          (((a.conversations u ++ [("user", msg), ("assistant", r.message)]).length : Int)
            > a.max_history * 2)
      · rw [if_pos hgt, pySliceFrom_neg_length _ _ (by omega)]
        omega
      · rw [if_neg hgt]
        omega
    · simpa [generateResponse, hesc, ChatAgent.setConv, huid] using hlen

lemma runCalls_bound (mh : Int) (hmh : 1 ≤ mh) (calls : List CallSpec) :
    ∀ (a : ChatAgent), a.max_history = mh →
      (∀ u, ((a.conversations u).length : Int) ≤ mh * 2) →
      ∀ u, (((runCalls a calls).conversations u).length : Int) ≤ mh * 2 := by
  induction calls with
  | nil => intro a _ hinv u; simpa [runCalls] using hinv u
  | cons c cs ih =>
    intro a hmx hinv u
    have hstep : ∀ v,
        (((generateResponse a c.response c.user_message c.user_id false).agent.conversations
            v).length : Int) ≤ mh * 2 := by
      intro v
      have := generateResponse_bound_step a c.response c.user_message c.user_id v
        (by omega) (by simpa [hmx] using hinv v)
      simpa [hmx] using this
    have hmax :
        (generateResponse a c.response c.user_message c.user_id false).agent.max_history
          = mh := by
      rw [generateResponse_agent_max_history, hmx]
    simpa [runCalls] using ih _ hmax hstep u

/-- C6 counterexample: with max_history = 0 the trimming slice
history[-0:] keeps the whole list, so one non-escalated call already
leaves 2 entries, exceeding the claimed bound max_history*2 = 0. -/
theorem C6_counterexample_max_history_zero :
    ¬ ((((runCalls (mkChatAgent 0) [⟨okResp, "hi", 7⟩]).conversations 7).length : Int)
        ≤ (mkChatAgent 0).max_history * 2) := by decide

/-- C6 amended: provided the agent was constructed with max_history at
least 1 (the default is 10), after any sequence of generate_response calls
with clear_history left false no user's stored history exceeds
max_history*2 entries; and for any max_history, a call whose response
escalates leaves the agent state exactly as before the call. -/
theorem C6_history_bound_amended (mh : Int) (hmh : 1 ≤ mh) (calls : List CallSpec)
    (u : Int) :
    (((runCalls (mkChatAgent mh) calls).conversations u).length : Int) ≤ mh * 2
    ∧ ∀ (a : ChatAgent) (r : ChatResponse) (msg : String) (uid : Int),
        r.should_escalate = true → (generateResponse a r msg uid false).agent = a := by
  constructor
  · exact runCalls_bound mh hmh calls (mkChatAgent mh) rfl
      (fun v => by simp [mkChatAgent]; omega) u
  · intro a r msg uid h
    simp [generateResponse, h]

/-- Witness for C6 amended at max_history 1, one non-escalated call and
one concrete escalated frame instance. -/
theorem C6_history_bound_amended_witness :
    (((runCalls (mkChatAgent 1) [⟨okResp, "hi", 7⟩]).conversations 7).length : Int) ≤ 1 * 2
    ∧ (generateResponse (mkChatAgent 1) escalatingResp "q" 5 false).agent = mkChatAgent 1 :=
  ⟨(C6_history_bound_amended 1 (by decide) [⟨okResp, "hi", 7⟩] 7).1,
   (C6_history_bound_amended 1 (by decide) [] 0).2 (mkChatAgent 1) escalatingResp "q" 5 rfl⟩

/-! ## Lemmas about the chunking loop -/

lemma chunkLoop_spec (size ov : Nat) (hlt : ov < size) (idx : Nat) (t : List Char) :
    ∀ (n start cidx : Nat), t.length - start ≤ n →
    (∀ c ∈ chunkLoop size ov hlt idx t start cidx,
        c.text = (t.drop c.metadata.start).take (c.metadata.end_pos - c.metadata.start)
        ∧ c.metadata.end_pos = min (c.metadata.start + size) t.length
        ∧ c.text.length ≤ size)
    ∧ List.Chain' (fun c c' =>
        c'.metadata.start = c.metadata.start + (size - ov)
        ∧ c'.metadata.start ≤ c.metadata.end_pos) (chunkLoop size ov hlt idx t start cidx)
    ∧ (start < t.length →
        ∃ c0 tl, chunkLoop size ov hlt idx t start cidx = c0 :: tl
          ∧ c0.metadata.start = start
          ∧ ∃ cl, (chunkLoop size ov hlt idx t start cidx).getLast? = some cl
              ∧ cl.metadata.end_pos = t.length) := by
  intro n
  induction n with
  | zero =>
    intro start cidx hn
    have hstart : ¬ start < t.length := by omega
    rw [chunkLoop]
    simp only [dif_neg hstart]
    exact ⟨by simp, by simp, fun h => absurd h hstart⟩
  | succ n ihn =>
    intro start cidx hn
    by_cases hstart : start < t.length
    · rw [chunkLoop]
      simp only [dif_pos hstart]
      by_cases hend : (start + size) ⊓ t.length = t.length
      · rw [if_pos hend]
        refine ⟨?_, by simp, ?_⟩
        · intro c hc
          simp only [List.mem_singleton] at hc
          subst hc
          refine ⟨rfl, rfl, ?_⟩
          simp only [List.length_take, List.length_drop]
          omega
        · intro _
          exact ⟨_, [], rfl, rfl, _, rfl, hend⟩
      · rw [if_neg hend]
        have hsz : start + size < t.length := by omega
        have hnext : start + (size - ov) < t.length := by omega
        obtain ⟨ihel, ihch, ihtail⟩ := ihn (start + (size - ov)) (cidx + 1) (by omega)
        obtain ⟨c0, tl, hrest, hc0, cl, hlast, hcl⟩ := ihtail hnext
        refine ⟨?_, ?_, ?_⟩
        · intro c hc
          rcases List.mem_cons.mp hc with hc | hc
          · subst hc
            refine ⟨rfl, rfl, ?_⟩
            simp only [List.length_take, List.length_drop]
            omega
          · exact ihel c hc
        · rw [hrest]
          refine List.chain'_cons.mpr ⟨⟨?_, ?_⟩, hrest ▸ ihch⟩
          · simpa using hc0
          · simp only [hc0]
            omega
        · intro _
          refine ⟨_, _, rfl, rfl, cl, ?_, hcl⟩
          rw [hrest, List.getLast?_cons_cons, ← hrest]
          exact hlast
    · rw [chunkLoop]
      simp only [dif_neg hstart]
      exact ⟨by simp, by simp, fun h => absurd h hstart⟩

lemma chunkTexts_singleton (size ov : Nat) (hlt : ov < size) (t : List Char) :
    chunkTexts size ov hlt [t] = chunkLoop size ov hlt 0 t 0 0 := by
  simp [chunkTexts, List.enum, List.enumFrom]

lemma chunkLoop_single (size ov : Nat) (hlt : ov < size) (idx : Nat) (t : List Char)
    (h0 : 0 < t.length) (hle : t.length ≤ size) :
    (chunkLoop size ov hlt idx t 0 0).length = 1 := by
  have hend : (0 + size) ⊓ t.length = t.length := by omega
  rw [chunkLoop]
  simp only [dif_pos h0, if_pos hend, List.length_singleton]

/-- C8 counterexample: the empty text is shorter than chunk_size 500 yet
_chunk_texts yields no chunk for it at all, not exactly one. -/
theorem C8_counterexample_empty_text :
    ([] : List Char).length < 500
    ∧ (chunkTexts 500 50 (Nat.lt_of_sub_eq_succ rfl) [([] : List Char)]).length ≠ 1 := by
  refine ⟨by decide, ?_⟩
  rw [chunkTexts_singleton, chunkLoop]
  simp

/-- C8 amended: for stride-positive configurations (chunk_overlap below
chunk_size, as with the defaults 500 and 50), within one source text every
chunk's text equals the source slice at its recorded start and end
offsets, the recorded end is min(start+chunk_size, length) so every chunk
is at most chunk_size long, consecutive chunk starts differ by exactly
chunk_size − chunk_overlap with each next start not passing the previous
end (so the recorded spans cover the text from offset 0 to its length with
overlaps only at the stride boundaries), and a NON-empty text no longer
than chunk_size yields exactly one chunk — the empty text yields none. -/
theorem C8_chunk_windows_amended (size ov : Nat) (hlt : ov < size) (t : List Char) :
    (∀ c ∈ chunkTexts size ov hlt [t],
        c.text = (t.drop c.metadata.start).take (c.metadata.end_pos - c.metadata.start)
        ∧ c.metadata.end_pos = min (c.metadata.start + size) t.length
        ∧ c.text.length ≤ size)
    ∧ List.Chain' (fun c c' =>
        c'.metadata.start = c.metadata.start + (size - ov)
        ∧ c'.metadata.start ≤ c.metadata.end_pos) (chunkTexts size ov hlt [t])
    ∧ (t ≠ [] →
        ∃ c0 tl, chunkTexts size ov hlt [t] = c0 :: tl
          ∧ c0.metadata.start = 0
          ∧ ∃ cl, (chunkTexts size ov hlt [t]).getLast? = some cl
              ∧ cl.metadata.end_pos = t.length)
    ∧ (0 < t.length → t.length ≤ size → (chunkTexts size ov hlt [t]).length = 1) := by
  rw [chunkTexts_singleton]
  obtain ⟨h1, h2, h3⟩ := chunkLoop_spec size ov hlt 0 t t.length 0 0 (by omega)
  refine ⟨h1, h2, ?_, ?_⟩
  · intro hne
    exact h3 (List.length_pos.mpr hne)
  · intro h0 hle
    exact chunkLoop_single size ov hlt 0 t h0 hle

/-- Witness for C8 amended: a five-character text with window 8 and
overlap 2 produces exactly one chunk. -/
theorem C8_chunk_windows_amended_witness :
    (chunkTexts 8 2 (Nat.lt_of_sub_eq_succ rfl)
        [[ 'h', 'e', 'l', 'l', 'o' ]]).length = 1 :=
  (C8_chunk_windows_amended 8 2 (Nat.lt_of_sub_eq_succ rfl)
    [ 'h', 'e', 'l', 'l', 'o' ]).2.2.2 (by decide) (by decide)

end TgBot

